import Mathlib

/-!
Verification of the lcp-server license handlers (`pkg/api/licenseinfo_handler.go`)
against the natural-language specification of the license lifecycle engine.

Time values are modelled as integers counted in days, so that the Go call
`time.AddDate(0, 0, n)` becomes addition of `n`.  Store collaborators
(`h.Store.License()`) are modelled as oracles passed to each handler, and the
sequence of store calls a handler performs is returned explicitly as a trace.
-/

namespace LcpServer

/-- Modelled from the spec: the status constants of the `stor` package (the
package is not under `src/`; only the handlers referencing `stor.STATUS_READY`
are).  §4.1 lists the states `ready`, `active`, `expired`, `returned`,
`revoked`, `cancelled`. -/
def STATUS_READY : String := "ready"

/-- Modelled from the spec (§4.1): the `active` state. -/
def STATUS_ACTIVE : String := "active"

/-- Modelled from the spec (§4.1): the `expired` state. -/
def STATUS_EXPIRED : String := "expired"

/-- Modelled from the spec (§4.1): the terminal `returned` state. -/
def STATUS_RETURNED : String := "returned"

/-- Modelled from the spec (§4.1): the terminal `revoked` state. -/
def STATUS_REVOKED : String := "revoked"

/-- Modelled from the spec (§4.1): the terminal `cancelled` state. -/
def STATUS_CANCELLED : String := "cancelled"

/-- The license record (`stor.LicenseInfo`), with the fields the handlers and
the data model of the spec (§3) touch.  `id`, `createdAt`, `updatedAt` are the gorm
fields set by `UpdateLicense`; times are integers in days. -/
structure LicenseInfo where
  id : Nat
  createdAt : Int
  updatedAt : Int
  uuid : String
  userID : String
  publicationID : String
  status : String
  start : Option Int
  «end» : Option Int
  maxEnd : Option Int
  deviceCount : Int
  deviceMax : Int
  deriving Repr, DecidableEq

/-- Go `time.AddDate(0, 0, days)` with time counted in days. -/
def addDate00 (t : Int) (days : Int) : Int := t + days

/-- Lines 87-90 of `CreateLicense`: force the status to `ready`. -/
def forceReady (l : LicenseInfo) : LicenseInfo :=
  if l.status ≠ STATUS_READY then { l with status := STATUS_READY } else l

/-- Lines 91-96 of `CreateLicense`: set the max end date if there is an end
date and the max end date is not set in the input. -/
def setMaxEnd (renewMaxDays : Int) (l : LicenseInfo) : LicenseInfo :=
  match l.«end», l.maxEnd with
  | some e, none => { l with maxEnd := some (addDate00 e renewMaxDays) }
  | _, _ => l

/-- The record `CreateLicense` hands to the `Create` method of the store, built from the
bound payload. -/
def createdRecord (renewMaxDays : Int) (data : LicenseInfo) : LicenseInfo :=
  setMaxEnd renewMaxDays (forceReady data)

/-- One call on the store collaborator `h.Store.License()`. -/
inductive StoreCall where
  | create (l : LicenseInfo)
  | get (licenseID : String)
  | update (l : LicenseInfo)
  | delete (l : LicenseInfo)
  | findByUser (userID : String)
  | findByPublication (pubID : String)
  | findByStatus (status : String)
  | findByDeviceCount (min max : Int)
  deriving Repr, DecidableEq

/-- One response write performed through `render`. -/
inductive Response where
  | errRender
  | errInvalidRequest
  | errNotFound
  | created (l : LicenseInfo)
  | license (l : LicenseInfo)
  | licenseList (ls : List LicenseInfo)
  deriving Repr, DecidableEq

/-- Handler `CreateLicense` (lines 77-110).  `bindRes` is the result of `render.Bind`
(`none` = bind error); `createOk` tells whether the `Create` store method succeeds,
`renderOk` whether the final render succeeds. -/
def createLicense (renewMaxDays : Int) (bindRes : Option LicenseInfo)
    (createOk renderOk : Bool) : Response × List StoreCall :=
  match bindRes with
  | none => (.errInvalidRequest, [])
  | some data =>
    let license := createdRecord renewMaxDays data
    if createOk then
      if renderOk then (.created license, [.create license])
      else (.errRender, [.create license])
    else (.errRender, [.create license])

/-- Handler `GetLicense` (lines 113-132).  `store` is the `Get` store method
(`none` = error). -/
def getLicense (store : String → Option LicenseInfo) (licenseID : String)
    (renderOk : Bool) : Response × List StoreCall :=
  if licenseID ≠ "" then
    match store licenseID with
    | none => (.errNotFound, [.get licenseID])
    | some license =>
      if renderOk then (.license license, [.get licenseID])
      else (.errRender, [.get licenseID])
  else (.errInvalidRequest, [])

/-- Lines 160-164 of `UpdateLicense`: set the gorm fields.  Only `ID` and
`CreatedAt` are copied from the stored record (`UpdatedAt` and `DeletedAt`
are commented out in the source). -/
def setGormFields (payload currentLic : LicenseInfo) : LicenseInfo :=
  { payload with id := currentLic.id, createdAt := currentLic.createdAt }

/-- Handler `UpdateLicense` (lines 135-191). -/
def updateLicense (store : String → Option LicenseInfo) (licenseID : String)
    (bindRes : Option LicenseInfo) (updateOk renderOk : Bool) :
    Response × List StoreCall :=
  match bindRes with
  | none => (.errInvalidRequest, [])
  | some payload =>
    if licenseID ≠ "" then
      match store licenseID with
      | none => (.errNotFound, [.get licenseID])
      | some currentLic =>
        let license := setGormFields payload currentLic
        if updateOk then
          if renderOk then (.license license, [.get licenseID, .update license])
          else (.errRender, [.get licenseID, .update license])
        else (.errRender, [.get licenseID, .update license])
    else (.errNotFound, [])

/-- Handler `DeleteLicense` (lines 194-223). -/
def deleteLicense (store : String → Option LicenseInfo) (licenseID : String)
    (deleteOk renderOk : Bool) : Response × List StoreCall :=
  if licenseID ≠ "" then
    match store licenseID with
    | none => (.errNotFound, [.get licenseID])
    | some license =>
      if deleteOk then
        if renderOk then (.license license, [.get licenseID, .delete license])
        else (.errRender, [.get licenseID, .delete license])
      else (.errInvalidRequest, [.get licenseID, .delete license])
  else (.errNotFound, [])

/-- The record passed to the `Update` store method, extracted from a call trace. -/
def writtenOf : List StoreCall → Option LicenseInfo
  | [] => none
  | .update l :: _ => some l
  | _ :: calls => writtenOf calls

/-- The four query parameters `SearchLicenses` inspects; `""` models an absent
parameter, matching `r.URL.Query().Get`. -/
structure SearchQuery where
  user : String
  pub : String
  status : String
  count : String
  deriving Repr, DecidableEq

/-- The find methods of the store collaborator used by `SearchLicenses`
(`none` = error). -/
structure LicenseStoreFind where
  findByUser : String → Option (List LicenseInfo)
  findByPublication : String → Option (List LicenseInfo)
  findByStatus : String → Option (List LicenseInfo)
  findByDeviceCount : Int → Int → Option (List LicenseInfo)

/-- Lines 66-73 of `SearchLicenses`: render the find result (error → one
`ErrRender` write, otherwise the list, or `ErrRender` if the list render
fails). -/
def renderFound (renderOk : Bool) : Option (List LicenseInfo) → List Response
  | none => [.errRender]
  | some ls => if renderOk then [.licenseList ls] else [.errRender]

/-- The numeric value of a decimal digit character, or `none`. -/
def digitVal (c : Char) : Option Nat :=
  if c.isDigit then some (c.toNat - 48) else none

/-- Decimal digits to a number; empty input is rejected. -/
def parseDigits (cs : List Char) : Option Nat :=
  match cs with
  | [] => none
  | _ => cs.foldlM (fun acc c => (digitVal c).map (fun d => 10 * acc + d)) 0

/-- Go `strconv.Atoi`: optional sign followed by at least one decimal
digit. -/
def atoi (s : String) : Option Int :=
  match s.toList with
  | [] => none
  | c :: rest =>
    if c = '+' then (parseDigits rest).map (fun n => (n : Int))
    else if c = '-' then (parseDigits rest).map (fun n => -(n : Int))
    else (parseDigits (c :: rest)).map (fun n => (n : Int))

/-- The use of `strconv.Atoi` in the count branch: on error the assigned Go `int`
keeps its zero value, so the pair is the value together with the success
flag. -/
def atoiOrZero (s : String) : Int × Bool :=
  match atoi s with
  | some n => (n, true)
  | none => (0, false)

/-- Splitting on a separator character, accumulator style; mirrors Go
`strings.Split` (the empty string yields one empty field). -/
def splitCharAux (sep : Char) : List Char → List Char → List (List Char)
  | [], acc => [acc.reverse]
  | c :: cs, acc =>
    if c = sep then acc.reverse :: splitCharAux sep cs []
    else splitCharAux sep cs (c :: acc)

/-- Line 50, Go `strings.Split` on the colon separator. -/
def splitColon (s : String) : List String :=
  (splitCharAux ':' s.toList []).map (fun cs => String.mk cs)

/-- Lines 47-61 of `SearchLicenses`: the `count` branch.  After a failed
`Atoi` the code renders `ErrInvalidRequest` but does not return, so the store
query still runs (with the zero value for the unparsed bound) and a further
response is written. -/
def searchByCount (st : LicenseStoreFind) (count : String) (renderOk : Bool) :
    List Response × List StoreCall :=
  match splitColon count with
  | [p0, p1] =>
    let minP := atoiOrZero p0
    let maxP := atoiOrZero p1
    let w0 : List Response := if minP.2 then [] else [.errInvalidRequest]
    let w1 : List Response := if maxP.2 then [] else [.errInvalidRequest]
    (w0 ++ w1 ++ renderFound renderOk (st.findByDeviceCount minP.1 maxP.1),
      [.findByDeviceCount minP.1 maxP.1])
  | _ => ([.errInvalidRequest], [])

/-- Handler `SearchLicenses` (lines 33-74); returns every response write together with
the store-call trace. -/
def searchLicenses (st : LicenseStoreFind) (q : SearchQuery) (renderOk : Bool) :
    List Response × List StoreCall :=
  if q.user ≠ "" then
    (renderFound renderOk (st.findByUser q.user), [.findByUser q.user])
  else if q.pub ≠ "" then
    (renderFound renderOk (st.findByPublication q.pub), [.findByPublication q.pub])
  else if q.status ≠ "" then
    (renderFound renderOk (st.findByStatus q.status), [.findByStatus q.status])
  else if q.count ≠ "" then
    searchByCount st q.count renderOk
  else ([.errNotFound], [])

/-- Modelled from the spec: the pure transition function of the Status Engine,
`currentStatus(record, now)` of §4.1 is not under `src/` (the handlers are
the only sources given).  Terminal statuses are returned
unchanged; else `expired` when `end` is set and `now > end`; else `active`
when at least one device is registered; else `ready`. -/
def currentStatus (l : LicenseInfo) (now : Int) : String :=
  if l.status = STATUS_RETURNED ∨ l.status = STATUS_REVOKED ∨
      l.status = STATUS_CANCELLED then
    l.status
  else
    match l.«end» with
    | some e =>
      if now > e then STATUS_EXPIRED
      else if l.deviceCount ≥ 1 then STATUS_ACTIVE else STATUS_READY
    | none => if l.deviceCount ≥ 1 then STATUS_ACTIVE else STATUS_READY

/-- The error kinds of the Renewal Policy (§4.2 / §7). -/
inductive RenewError where
  | invalidState
  | renewalTooLate
  | renewalInPast
  deriving Repr, DecidableEq

/-- Modelled from the spec: the computed/requested new end of §4.2 — the
requested end when supplied, else the default `max(record.end, now) +
maxRenewDays`. -/
def renewNewEnd (l : LicenseInfo) (requestedEnd : Option Int)
    (now maxRenewDays : Int) : Int :=
  match requestedEnd with
  | some e => e
  | none =>
    match l.«end» with
    | some e => max e now + maxRenewDays
    | none => now + maxRenewDays

/-- Modelled from the spec: whether the computed/requested end exceeds
`maxEnd`, when `maxEnd` is set (§4.2). -/
def exceedsMaxEnd (l : LicenseInfo) (newEnd : Int) : Bool :=
  match l.maxEnd with
  | some m => decide (newEnd > m)
  | none => false

/-- Modelled from the spec: whether the end would shrink below the current
`end` of the record (§4.2). -/
def shrinksEnd (l : LicenseInfo) (newEnd : Int) : Bool :=
  match l.«end» with
  | some e => decide (newEnd < e)
  | none => false

/-- Modelled from the spec: the Renewal Policy `renew(record, requestedEnd,
now, maxRenewDays)` of §4.2 is not under `src/`.  Fails `InvalidState` unless
the derived status is `active` or `ready`; when `requestedEnd` is omitted the
default is `max(record.end, now) + maxRenewDays` (`renewNewEnd`); fails
`RenewalTooLate` when the computed/requested end exceeds `maxEnd` (when set);
fails `RenewalInPast` when the end does not extend validity; otherwise
returns the new end. -/
def renew (l : LicenseInfo) (requestedEnd : Option Int) (now maxRenewDays : Int) :
    Except RenewError Int :=
  if currentStatus l now ≠ STATUS_ACTIVE ∧ currentStatus l now ≠ STATUS_READY then
    .error .invalidState
  else if exceedsMaxEnd l (renewNewEnd l requestedEnd now maxRenewDays) then
    .error .renewalTooLate
  else if renewNewEnd l requestedEnd now maxRenewDays ≤ now ∨
      shrinksEnd l (renewNewEnd l requestedEnd now maxRenewDays) = true then
    .error .renewalInPast
  else .ok (renewNewEnd l requestedEnd now maxRenewDays)

/-! ### Helper lemmas -/

theorem forceReady_status (l : LicenseInfo) : (forceReady l).status = STATUS_READY := by
  unfold forceReady
  split
  · rfl
  · next h => exact not_ne_iff.mp h

theorem forceReady_end (l : LicenseInfo) : (forceReady l).«end» = l.«end» := by
  unfold forceReady
  split <;> rfl

theorem forceReady_maxEnd (l : LicenseInfo) : (forceReady l).maxEnd = l.maxEnd := by
  unfold forceReady
  split <;> rfl

theorem setMaxEnd_status (d : Int) (l : LicenseInfo) :
    (setMaxEnd d l).status = l.status := by
  unfold setMaxEnd
  split <;> rfl

theorem createdRecord_status (d : Int) (p : LicenseInfo) :
    (createdRecord d p).status = STATUS_READY := by
  unfold createdRecord
  rw [setMaxEnd_status, forceReady_status]

/-! ### The claims -/

/-- C1: every record `CreateLicense` stores and returns has status `ready`,
whatever status the request payload supplied: the record handed to the
`Create` store method is `createdRecord`, its status is forced to `ready`,
and the success response returns the same record. -/
theorem create_forces_ready (days : Int) (p : LicenseInfo) (createOk renderOk : Bool) :
    (createdRecord days p).status = STATUS_READY ∧
    (createLicense days (some p) createOk renderOk).2 = [.create (createdRecord days p)] ∧
    (createLicense days (some p) createOk renderOk).1 =
      (if createOk && renderOk then .created (createdRecord days p) else .errRender) := by
  refine ⟨createdRecord_status days p, ?_, ?_⟩ <;>
    cases createOk <;> cases renderOk <;> rfl

/-- C2: `CreateLicense` derives `maxEnd = end + renewMaxDays` exactly when the
payload has an end date and no max end date; in every other case the `maxEnd`
of the record passed to the store is the one received. -/
theorem create_maxEnd_defaulting (days : Int) (p : LicenseInfo) :
    (createdRecord days p).maxEnd =
      (match p.«end», p.maxEnd with
       | some e, none => some (addDate00 e days)
       | _, _ => p.maxEnd) := by
  unfold createdRecord setMaxEnd
  rw [forceReady_end, forceReady_maxEnd]
  rcases h1 : p.«end» with _ | e <;> rcases h2 : p.maxEnd with _ | m <;>
    simp [forceReady_maxEnd, h1, h2]

/-! ### Concrete fixtures used by counterexamples and witnesses -/

/-- A stored record whose status is the terminal `revoked`. -/
def curRevoked : LicenseInfo :=
  { id := 42, createdAt := 5, updatedAt := 7, uuid := "uu-1", userID := "user-1",
    publicationID := "pub-1", status := "revoked", start := none,
    «end» := some 50, maxEnd := some 80, deviceCount := 1, deviceMax := 2 }

/-- An update payload carrying status `ready` and zeroed gorm fields. -/
def payloadReady : LicenseInfo :=
  { id := 0, createdAt := 0, updatedAt := 0, uuid := "uu-1", userID := "user-1",
    publicationID := "pub-1", status := "ready", start := none,
    «end» := some 60, maxEnd := some 80, deviceCount := 1, deviceMax := 2 }

/-- A store whose `Get` knows exactly the license `lic-1`. -/
def store1 : String → Option LicenseInfo :=
  fun s => if s = "lic-1" then some curRevoked else none

/-- A store whose `Get` always fails. -/
def storeEmpty : String → Option LicenseInfo := fun _ => none

/-- C3 counterexample: `UpdateLicense` on the stored `revoked` record `lic-1`
writes the payload status `ready` to the store, not the stored status — the
status field is not engine-controlled across updates. -/
theorem update_status_cex :
    (writtenOf (updateLicense store1 "lic-1" (some payloadReady) true true).2).map
        LicenseInfo.status = some STATUS_READY ∧
    curRevoked.status = STATUS_REVOKED ∧
    ¬ ((writtenOf (updateLicense store1 "lic-1" (some payloadReady) true true).2).map
        LicenseInfo.status = some curRevoked.status) := by decide

/-- C3 amended: for every `UpdateLicense` call on an existing record, the
record written to the store is the payload with only `id` and `createdAt`
replaced by the stored values, so its status equals the status of the
request payload. -/
theorem update_status_from_payload (store : String → Option LicenseInfo)
    (licenseID : String) (payload currentLic : LicenseInfo) (u r : Bool)
    (hid : licenseID ≠ "") (hcur : store licenseID = some currentLic) :
    writtenOf (updateLicense store licenseID (some payload) u r).2 =
      some (setGormFields payload currentLic) ∧
    (setGormFields payload currentLic).status = payload.status := by
  refine ⟨?_, rfl⟩
  cases u <;> cases r <;> simp [updateLicense, hid, hcur, writtenOf]

/-- C3 witness at the concrete store. -/
theorem update_status_from_payload_witness :
    writtenOf (updateLicense store1 "lic-1" (some payloadReady) true true).2 =
      some (setGormFields payloadReady curRevoked) ∧
    (setGormFields payloadReady curRevoked).status = payloadReady.status :=
  update_status_from_payload store1 "lic-1" payloadReady curRevoked true true
    (by decide) (by decide)

/-- C4 counterexample: `UpdateLicense` leaves `updatedAt` exactly as received
in the payload (here `0`), so the record written to the store has
`createdAt = 5 > updatedAt = 0` and the invariant `createdAt ≤ updatedAt`
fails on the written record. -/
theorem update_updatedAt_cex :
    writtenOf (updateLicense store1 "lic-1" (some payloadReady) true true).2 =
      some (setGormFields payloadReady curRevoked) ∧
    ¬ ((setGormFields payloadReady curRevoked).createdAt ≤
        (setGormFields payloadReady curRevoked).updatedAt) := by decide

/-- C4 amended: `UpdateLicense` does not refresh `updatedAt`: the record
written to the store carries the `updatedAt` received in the request payload
(the handler reads no clock; the source comments out the refresh and leaves
the value to the caller). -/
theorem update_keeps_payload_updatedAt (store : String → Option LicenseInfo)
    (licenseID : String) (payload currentLic : LicenseInfo) (u r : Bool)
    (hid : licenseID ≠ "") (hcur : store licenseID = some currentLic) :
    writtenOf (updateLicense store licenseID (some payload) u r).2 =
      some (setGormFields payload currentLic) ∧
    (setGormFields payload currentLic).updatedAt = payload.updatedAt := by
  refine ⟨?_, rfl⟩
  cases u <;> cases r <;> simp [updateLicense, hid, hcur, writtenOf]

/-- C4 witness at the concrete store. -/
theorem update_keeps_payload_updatedAt_witness :
    writtenOf (updateLicense store1 "lic-1" (some payloadReady) true true).2 =
      some (setGormFields payloadReady curRevoked) ∧
    (setGormFields payloadReady curRevoked).updatedAt = payloadReady.updatedAt :=
  update_keeps_payload_updatedAt store1 "lic-1" payloadReady curRevoked true true
    (by decide) (by decide)

/-- C5: `id` and `createdAt` are immutable across `UpdateLicense`: whatever
the payload carries, the record written to the store keeps the stored values
of `id` and `createdAt` (lines 161-162 copy them from the current record). -/
theorem update_preserves_id_createdAt (store : String → Option LicenseInfo)
    (licenseID : String) (payload currentLic : LicenseInfo) (u r : Bool)
    (hid : licenseID ≠ "") (hcur : store licenseID = some currentLic) :
    writtenOf (updateLicense store licenseID (some payload) u r).2 =
      some (setGormFields payload currentLic) ∧
    (setGormFields payload currentLic).id = currentLic.id ∧
    (setGormFields payload currentLic).createdAt = currentLic.createdAt := by
  refine ⟨?_, rfl, rfl⟩
  cases u <;> cases r <;> simp [updateLicense, hid, hcur, writtenOf]

/-- C5 witness at the concrete store. -/
theorem update_preserves_id_createdAt_witness :
    writtenOf (updateLicense store1 "lic-1" (some payloadReady) true true).2 =
      some (setGormFields payloadReady curRevoked) ∧
    (setGormFields payloadReady curRevoked).id = curRevoked.id ∧
    (setGormFields payloadReady curRevoked).createdAt = curRevoked.createdAt :=
  update_preserves_id_createdAt store1 "lic-1" payloadReady curRevoked true true
    (by decide) (by decide)

/-- C6: when the `Get` store method fails for the addressed license,
`GetLicense`, `UpdateLicense` and `DeleteLicense` all respond `NotFound` and
the trace holds no `Update` or `Delete` call; moreover `GetLicense` responds
`NotFound` exactly when a `Get` was issued and returned an error. -/
theorem absent_record_not_found (store : String → Option LicenseInfo)
    (licenseID : String) (payload : LicenseInfo) (u r d : Bool) :
    (licenseID ≠ "" → store licenseID = none →
      getLicense store licenseID r = (.errNotFound, [.get licenseID]) ∧
      updateLicense store licenseID (some payload) u r = (.errNotFound, [.get licenseID]) ∧
      deleteLicense store licenseID d r = (.errNotFound, [.get licenseID])) ∧
    ((getLicense store licenseID r).1 = .errNotFound ↔
      (licenseID ≠ "" ∧ store licenseID = none)) := by
  constructor
  · intro hid hnone
    refine ⟨?_, ?_, ?_⟩ <;> simp [getLicense, updateLicense, deleteLicense, hid, hnone]
  · by_cases hid : licenseID = ""
    · subst hid
      simp [getLicense]
    · rcases hres : store licenseID with _ | l
      · simp [getLicense, hid, hres]
      · cases r <;> simp [getLicense, hid, hres]

/-- C6 witness at the empty store. -/
theorem absent_record_not_found_witness :
    getLicense storeEmpty "lic-1" true = (.errNotFound, [.get "lic-1"]) ∧
    updateLicense storeEmpty "lic-1" (some payloadReady) true true =
      (.errNotFound, [.get "lic-1"]) ∧
    deleteLicense storeEmpty "lic-1" true true = (.errNotFound, [.get "lic-1"]) :=
  (absent_record_not_found storeEmpty "lic-1" payloadReady true true true).1
    (by decide) (by decide)

/-- C7: terminal statuses are sticky — whenever the stored status is
`returned`, `revoked` or `cancelled`, `currentStatus` returns it unchanged for
every value of `now` (and of the `end` and `deviceCount` fields, which are
universally quantified inside the record). -/
theorem currentStatus_terminal_sticky (l : LicenseInfo) (now : Int)
    (h : l.status = STATUS_RETURNED ∨ l.status = STATUS_REVOKED ∨
      l.status = STATUS_CANCELLED) :
    currentStatus l now = l.status := by
  unfold currentStatus
  rw [if_pos h]

/-- C7 witness on the concrete revoked record. -/
theorem currentStatus_terminal_sticky_witness :
    (curRevoked.status = STATUS_RETURNED ∨ curRevoked.status = STATUS_REVOKED ∨
      curRevoked.status = STATUS_CANCELLED) ∧
    currentStatus curRevoked 100 = curRevoked.status :=
  ⟨by decide, currentStatus_terminal_sticky curRevoked 100 (by decide)⟩

/-- A renewable record: status `ready`, an end date and a max end date. -/
def lReady : LicenseInfo :=
  { id := 7, createdAt := 0, updatedAt := 0, uuid := "uu-2", userID := "user-2",
    publicationID := "pub-2", status := "ready", start := some 0,
    «end» := some 5, maxEnd := some 80, deviceCount := 0, deviceMax := 2 }

/-- C8: every successful renewal extends validity — the new end is at least
the previous end (when one was set) and never exceeds `maxEnd` (when set). -/
theorem renew_monotone_bounded (l : LicenseInfo) (requestedEnd : Option Int)
    (now maxRenewDays newEnd : Int)
    (h : renew l requestedEnd now maxRenewDays = .ok newEnd) :
    (∀ e, l.«end» = some e → e ≤ newEnd) ∧
    (∀ m, l.maxEnd = some m → newEnd ≤ m) := by
  unfold renew at h
  split at h
  · exact absurd h (by simp)
  · split at h
    · exact absurd h (by simp)
    · split at h
      · exact absurd h (by simp)
      · injection h with h
        subst h
        rename_i htl hip
        refine ⟨fun e hE => ?_, fun m hM => ?_⟩
        · unfold shrinksEnd at hip
          rw [hE] at hip
          simp only [decide_eq_true_eq, not_or, not_lt] at hip
          exact hip.2
        · unfold exceedsMaxEnd at htl
          rw [hM] at htl
          simp only [decide_eq_true_eq, gt_iff_lt, not_lt] at htl
          exact htl

/-- C8 witness: a concrete successful renewal. -/
theorem renew_monotone_bounded_witness :
    renew lReady (some 9) 3 30 = .ok 9 ∧
    ((∀ e, lReady.«end» = some e → e ≤ 9) ∧
      (∀ m, lReady.maxEnd = some m → 9 ≤ m)) :=
  ⟨by rfl, renew_monotone_bounded lReady (some 9) 3 30 9 (by rfl)⟩

/-- A search store whose find methods all succeed with the empty list. -/
def stFixed : LicenseStoreFind :=
  { findByUser := fun _ => some []
    findByPublication := fun _ => some []
    findByStatus := fun _ => some []
    findByDeviceCount := fun _ _ => some [] }

/-- C9: with `count = "a:2"` (two colon-separated parts, first not an
integer), `SearchLicenses` renders `ErrInvalidRequest` but — lacking a
`return` after that render — still calls `FindByDeviceCount` (with the Go
zero value `0` for the unparsed bound) and writes a second response. -/
theorem search_count_parse_missing_return :
    searchLicenses stFixed { user := "", pub := "", status := "", count := "a:2" } true =
      ([.errInvalidRequest, .licenseList []], [.findByDeviceCount 0 2]) := by decide

/-- C10: `SearchLicenses` selects its single criterion by the fixed
precedence `user`, `pub`, `status`, `count`: the first non-empty parameter
determines the one find call made (for `count`, with its two parsed bounds);
with all four parameters absent it responds `NotFound` with no store query;
and no request ever issues more than one store call. -/
theorem search_single_criterion (st : LicenseStoreFind) (q : SearchQuery) (r : Bool) :
    (q.user ≠ "" → (searchLicenses st q r).2 = [.findByUser q.user]) ∧
    (q.user = "" → q.pub ≠ "" → (searchLicenses st q r).2 = [.findByPublication q.pub]) ∧
    (q.user = "" → q.pub = "" → q.status ≠ "" →
      (searchLicenses st q r).2 = [.findByStatus q.status]) ∧
    (∀ a b m n, q.user = "" → q.pub = "" → q.status = "" → q.count ≠ "" →
      splitColon q.count = [a, b] → atoi a = some m → atoi b = some n →
      (searchLicenses st q r).2 = [.findByDeviceCount m n]) ∧
    (q.user = "" → q.pub = "" → q.status = "" → q.count = "" →
      searchLicenses st q r = ([.errNotFound], [])) ∧
    (searchLicenses st q r).2.length ≤ 1 := by
  refine ⟨?_, ?_, ?_, ?_, ?_, ?_⟩
  · intro hu
    simp [searchLicenses, hu]
  · intro hu hp
    simp [searchLicenses, hu, hp]
  · intro hu hp hs
    simp [searchLicenses, hu, hp, hs]
  · intro a b m n hu hp hs hc hsplit ha hb
    simp only [searchLicenses, hu, hp, hs, hc, ne_eq, not_true_eq_false,
      if_false, if_neg, not_false_eq_true, if_true]
    simp only [searchByCount, hsplit, atoiOrZero, ha, hb]
  · intro hu hp hs hc
    simp [searchLicenses, hu, hp, hs, hc]
  · by_cases hu : q.user = ""
    · by_cases hp : q.pub = ""
      · by_cases hs : q.status = ""
        · by_cases hc : q.count = ""
          · simp [searchLicenses, hu, hp, hs, hc]
          · simp only [searchLicenses, hu, hp, hs, hc]
            simp only [ne_eq, not_true_eq_false, if_false, not_false_eq_true, if_true]
            unfold searchByCount
            rcases splitColon q.count with _ | ⟨a, _ | ⟨b, _ | _⟩⟩ <;> simp [hc]
        · simp [searchLicenses, hu, hp, hs]
      · simp [searchLicenses, hu, hp]
    · simp [searchLicenses, hu]

/-- C10 witness: the `user` parameter takes precedence over the others. -/
theorem search_single_criterion_witness :
    (searchLicenses stFixed { user := "u1", pub := "p1", status := "s1", count := "1:2" } true).2 =
      [.findByUser "u1"] :=
  (search_single_criterion stFixed
    { user := "u1", pub := "p1", status := "s1", count := "1:2" } true).1 (by decide)

end LcpServer
